import Mathlib

set_option maxRecDepth 10000

namespace VecBrain

/-- Embedding vectors: `list[float]` in the source, modelled with integer
components since the program never performs arithmetic on the components. -/
abbrev Vec := List Int

/-- A Python dict value occurring in point payloads and metadata. -/
inductive MetaVal where
  | s (v : String)
  | n (v : Int)
deriving DecidableEq

/-- A Python dict with string keys, as an association list (first match wins). -/
abbrev PyDict := List (String × MetaVal)

/-- Dictionary lookup, Python `d[k]` / `d.get(k)`. -/
def dictGet (d : PyDict) (k : String) : Option MetaVal :=
  match d with
  | [] => none
  | (k', v) :: rest => if k' = k then some v else dictGet rest k

/-- Python dict merge `\x7b**d, **u\x7d` / `d.update(u)`: entries of `u` override
entries of `d` with the same key. -/
def dictUpdate (d u : PyDict) : PyDict :=
  u ++ d.filter (fun e => u.all (fun x => !(decide (x.1 = e.1))))

/-- A point stored in the vector index (`models.PointStruct` in
app/services/qdrant.py). -/
structure IndexedPoint where
  id : Int
  vector : Vec
  payload : PyDict
deriving DecidableEq

/-- app/services/qdrant.py `store_document` (lines 25-37): the point upserted
for a given text, embedding and metadata.  Its id is Python `hash(text)`,
modelled as a deterministic hash function `pyHash` passed as a parameter; its
payload is `\x7b"text": text, **(metadata or \x7b\x7d)\x7d`. -/
def qdrant_store_point (pyHash : String → Int) (text : String) (embedding : Vec)
    (metadata : PyDict) : IndexedPoint :=
  { id := pyHash text
    vector := embedding
    payload := dictUpdate [("text", MetaVal.s text)] metadata }

/-- Python call binding: whether a call with `numPos` positional arguments and
keyword arguments named `kw` binds against a function whose parameters are
`params`, of which those in `defaults` carry default values.  Mirrors CPython:
positional arguments must not exceed the parameter count, every keyword must
name a parameter not already bound positionally, and every remaining parameter
must be supplied by keyword or carry a default. -/
def py_call_ok (params defaults : List String) (numPos : Nat) (kw : List String) : Bool :=
  decide (numPos ≤ params.length) &&
  kw.all (fun k => (params.drop numPos).contains k) &&
  (params.drop numPos).all (fun p => kw.contains p || defaults.contains p)

/-- Parameter names of app/services/qdrant.py `store_document(text, embedding, metadata=None)`. -/
def qdrant_store_params : List String := ["text", "embedding", "metadata"]

/-- Parameters of qdrant `store_document` that have default values. -/
def qdrant_store_defaults : List String := ["metadata"]

/-- app/main.py `store_document` endpoint (lines 196-209): it generates a UUID
and then calls `qdrant.store_document(doc_id, document.text, embedding,
document.metadata)` with four positional arguments.  The model returns the
request outcome together with the number of points actually upserted: when the
call fails to bind, a `TypeError` is raised before the callee body runs, so no
upsert happens and the handler's `except` turns it into an HTTP 500 error. -/
def store_document_endpoint (text : String) (embedding : Vec) (metadata : PyDict) :
    Except String Unit × Nat :=
  if py_call_ok qdrant_store_params qdrant_store_defaults 4 [] then
    (Except.ok (), 1)
  else
    (Except.error "TypeError", 0)

/-- Keyword names used by the two `qdrant.store_document(doc_id=..., text=...,
embedding=..., metadata=...)` calls inside the `/simplify` handler
(app/main.py lines 337-361). -/
def simplify_store_kwargs : List String := ["doc_id", "text", "embedding", "metadata"]

/-- Errors raised by app/services/openai.py `get_embedding`: the explicit
`ValueError` for over-long input, and re-raised provider errors. -/
inductive EmbedError where
  | inputTooLong (tokens : Nat)
  | providerError
deriving DecidableEq

/-- app/services/openai.py `count_tokens`: length of the tokenizer encoding of
the text.  The tiktoken `cl100k_base` encoder is external; it is passed in as
the `encode` parameter. -/
def count_tokens (encode : String → List Nat) (text : String) : Nat :=
  (encode text).length

/-- Body of app/services/openai.py `get_embedding` (lines 18-51), before the
`lru_cache` wrapper: check the token count against the 8191 limit, then call
the OpenAI embeddings endpoint (the `provider` parameter).  The second
component counts how many provider calls were made (0 or 1). -/
def get_embedding_body (encode : String → List Nat) (provider : String → Except Unit Vec)
    (text : String) : Except EmbedError Vec × Nat :=
  let tc := count_tokens encode text
  if tc > 8191 then
    (Except.error (EmbedError.inputTooLong tc), 0)
  else
    match provider text with
    | Except.ok v => (Except.ok v, 1)
    | Except.error _ => (Except.error EmbedError.providerError, 1)

/-- The `functools.lru_cache` store of `get_embedding`, most recently used
entry first. -/
abbrev EmbCache := List (String × Vec)

/-- Cache lookup by exact text key. -/
def lruLookup (c : EmbCache) (k : String) : Option Vec :=
  (c.find? (fun e => decide (e.1 = k))).map (fun e => e.2)

/-- On a cache hit, `lru_cache` moves the hit entry to the most recently used
position. -/
def lruTouch (c : EmbCache) (k : String) (v : Vec) : EmbCache :=
  (k, v) :: c.filter (fun e => !(decide (e.1 = k)))

/-- On a cache miss that computes a value, `lru_cache` inserts the entry at
the most recently used position, evicting beyond `maxsize=1000` entries. -/
def lruInsert (c : EmbCache) (k : String) (v : Vec) : EmbCache :=
  ((k, v) :: c).take 1000

/-- app/services/openai.py `get_embedding` as called, that is, the body wrapped
in `@lru_cache(maxsize=1000)`: on a hit, return the cached vector without
running the body; on a miss, run the body and cache the result only when it
does not raise.  Returns (result, new cache, number of provider calls). -/
def get_embedding (encode : String → List Nat) (provider : String → Except Unit Vec)
    (c : EmbCache) (text : String) : Except EmbedError Vec × EmbCache × Nat :=
  match lruLookup c text with
  | some v => (Except.ok v, lruTouch c text v, 0)
  | none =>
    match get_embedding_body encode provider text with
    | (Except.ok v, n) => (Except.ok v, lruInsert c text v, n)
    | (Except.error e, n) => (Except.error e, c, n)

/-- Outcome of the retrieval-augmented chain inside
app/services/langchain_service.py `get_chat_response` (lines 199-251). -/
inductive RagOutcome where
  | answer (a : String)
  | noAnswer
  | chainError
  | timeout
  | otherError
deriving DecidableEq

/-- The string returned by `get_chat_response` when the 10-second
`asyncio.timeout` fires. -/
def chatTimeoutMessage : String :=
  "I apologize, but the request took too long to process. Please try again with a shorter message or different query."

/-- The string returned by `get_chat_response` on any other uncaught error. -/
def chatErrorMessage : String :=
  "I apologize, but I encountered an error processing your request. Please try again."

/-- app/services/langchain_service.py `get_chat_response`: given the outcome of
the retrieval-augmented chain and the direct LLM call available as fallback,
produce the returned answer string together with a flag recording whether the
direct (no-context) generation call was invoked.  On a chain exception or a
missing answer the code falls back to `self.llm.ainvoke` on the raw query; on
`asyncio.TimeoutError` it returns a fixed apology with no fallback call; the
function returns a bare string, so no metadata accompanies the answer. -/
def get_chat_response (rag : RagOutcome) (direct : Except Unit String) : String × Bool :=
  match rag with
  | RagOutcome.answer a => (a, false)
  | RagOutcome.noAnswer =>
    (match direct with
     | Except.ok r => (r, true)
     | Except.error _ => (chatErrorMessage, true))
  | RagOutcome.chainError =>
    (match direct with
     | Except.ok r => (r, true)
     | Except.error _ => (chatErrorMessage, true))
  | RagOutcome.timeout => (chatTimeoutMessage, false)
  | RagOutcome.otherError => (chatErrorMessage, false)

/-- app/main.py `chat` endpoint non-streaming response body:
`\x7b"response": final_response\x7d` — the only key is "response". -/
def chat_response_payload (r : String) : PyDict :=
  [("response", MetaVal.s r)]

/-- app/services/langchain_service.py `add_to_chat_history` (lines 96-129):
the metadata written with a conversation turn. -/
def chat_turn_metadata (messageId role timestamp contextId content : String) : PyDict :=
  [("type", MetaVal.s "chat"), ("message_id", MetaVal.s messageId),
   ("role", MetaVal.s role), ("timestamp", MetaVal.s timestamp),
   ("context_id", MetaVal.s contextId), ("content", MetaVal.s content)]

/-- app/services/langchain_service.py `process_document` (lines 144-179): the
metadata written with chunk number `chunkId` of a document, merged with the
caller-supplied `extra` metadata (`metadata or \x7b\x7d`). -/
def langchain_chunk_metadata (docId : String) (chunkId : Nat) (source : String)
    (extra : PyDict) : PyDict :=
  dictUpdate [("doc_id", MetaVal.s docId), ("chunk_id", MetaVal.n chunkId),
              ("source", MetaVal.s source)] extra

/-- app/services/document_service.py `process_document` (lines 57-86): each
chunk's loader-provided metadata is updated with doc id, source and the
caller-supplied extra metadata. -/
def document_service_chunk_metadata (loaderMeta : PyDict) (docId source : String)
    (extra : PyDict) : PyDict :=
  dictUpdate loaderMeta
    (dictUpdate [("doc_id", MetaVal.s docId), ("source", MetaVal.s source)] extra)

/-- One point returned by the Qdrant scroll call in `get_chat_history`; only
its payload is consumed. -/
structure ScrollPoint where
  payload : Option PyDict
deriving DecidableEq

/-- The message records built by app/services/langchain_service.py
`get_chat_history` (lines 38-94). -/
structure ChatMessage where
  id : String
  text : String
  role : String
  timestamp : String
  context_id : Option String
deriving DecidableEq

/-- String-valued dict access with a default, `payload.get(k, dflt)`. -/
def getStr (d : PyDict) (k : String) (dflt : String) : String :=
  match dictGet d k with
  | some (MetaVal.s v) => v
  | _ => dflt

/-- The per-point conversion in `get_chat_history`: points whose payload is
missing or whose `type` is not "chat" are skipped; fields are read with the
defaults the code supplies (`defaultId` stands for the fresh `uuid.uuid4()`
default, `nowTs` for `datetime.now().isoformat()`). -/
def payload_to_message (defaultId nowTs : String) (p : PyDict) : Option ChatMessage :=
  if dictGet p "type" = some (MetaVal.s "chat") then
    some { id := getStr p "message_id" defaultId
           text := getStr p "content" ""
           role := getStr p "role" "user"
           timestamp := getStr p "timestamp" nowTs
           context_id :=
             match dictGet p "context_id" with
             | some (MetaVal.s v) => some v
             | _ => none }
  else
    none

/-- Comparison used by `messages.sort(key=lambda x: x["timestamp"])`. -/
def tsLe (a b : ChatMessage) : Prop :=
  a.timestamp ≤ b.timestamp

instance : DecidableRel tsLe := fun a b =>
  inferInstanceAs (Decidable (a.timestamp ≤ b.timestamp))

instance : IsTotal ChatMessage tsLe :=
  ⟨fun a b => le_total a.timestamp b.timestamp⟩

instance : IsTrans ChatMessage tsLe :=
  ⟨fun _ _ _ hab hbc => le_trans hab hbc⟩

/-- `messages.sort(key=lambda x: x["timestamp"])`: a stable ascending sort by
timestamp (Python uses stable Timsort; a stable insertion sort has the same
observable result). -/
def sortByTs (l : List ChatMessage) : List ChatMessage :=
  List.insertionSort tsLe l

/-- app/services/langchain_service.py `get_chat_history` (lines 38-94): scroll
the collection (outcome passed in as `scroll`), keep payloads typed "chat",
build message records, and sort ascending by timestamp.  Any exception is
caught, printed, and an empty list is returned. -/
def get_chat_history (scroll : Except String (List ScrollPoint))
    (defaultId nowTs : String) : List ChatMessage :=
  match scroll with
  | Except.error _ => []
  | Except.ok points =>
    sortByTs (points.filterMap (fun pt => pt.payload.bind (payload_to_message defaultId nowTs)))

/-- app/services/langchain_service.py `clear_chat_history` (lines 131-142):
build the delete filter and call `vector_store.delete`; any exception is
caught and only printed, so the function always returns `None` (success). -/
def clear_chat_history (delete : PyDict → Except String Unit)
    (contextId : Option String) : Except String Unit :=
  let fltr : PyDict :=
    ("type", MetaVal.s "chat") ::
      (match contextId with
       | some c => [("context_id", MetaVal.s c)]
       | none => [])
  match delete fltr with
  | Except.ok _ => Except.ok ()
  | Except.error _ => Except.ok ()

/-- Python `str` modelled character by character, for the chunking code whose
behavior depends on character counts. -/
abbrev PyStr := List Char

/-- Python `text.split()`: split on whitespace runs, discarding empty pieces. -/
def pyWords (t : PyStr) : List PyStr :=
  (t.splitOnP (fun c => c.isWhitespace)).filter (fun w => !(decide (w = [])))

/-- The word-accumulating loop of the app/main.py `chat` endpoint
(lines 435-444): grow `current` while `len(current) + len(word) + 1 <= 500`,
otherwise emit `current` (even when it is still empty) and start over from the
word; finally emit a non-empty `current`. -/
def chatChunksAux : List PyStr → PyStr → List PyStr
  | [], current => if current = [] then [] else [current]
  | w :: ws, current =>
    if current.length + w.length + 1 ≤ 500 then
      chatChunksAux ws (if current = [] then w else current ++ ' ' :: w)
    else
      current :: chatChunksAux ws w

/-- app/main.py `chat` endpoint text splitting: words re-joined with single
spaces into chunks of at most 500 characters, with no overlap. -/
def chatChunks (t : PyStr) : List PyStr :=
  chatChunksAux (pyWords t) []

/-- The spec's round-trip reconstruction: keep the first chunk whole and drop
the leading `overlap` characters of every later chunk, then concatenate. -/
def reconstructChunks (overlap : Nat) : List PyStr → PyStr
  | [] => []
  | c :: cs => c ++ (cs.map (fun x => x.drop overlap)).flatten

/-- The tail of a single-space join: one leading space before each word. -/
def joinSpTail : List PyStr → PyStr
  | [] => []
  | w :: ws => ' ' :: (w ++ joinSpTail ws)

/-- Words joined by single spaces (Python `" ".join(words)`). -/
def joinWords : List PyStr → PyStr
  | [] => []
  | w :: ws => w ++ joinSpTail ws

/-- Outcome of `langchain_service.get_chat_response(chunk)` for one chunk in
the app/main.py `chat` endpoint loop (lines 450-463). -/
inductive ChunkOutcome where
  | ok (r : String)
  | timedOut
  | failed
deriving DecidableEq

/-- Fallback text appended when a chunk's 15-second `asyncio.timeout` fires. -/
def chunkTimeoutMessage : String :=
  "I apologize, but this part of your message took too long to process. Please try again with a shorter message."

/-- Fallback text appended when processing a chunk raises any other error. -/
def chunkErrorMessage : String :=
  "I apologize, but I encountered an error processing this part of your message."

/-- The answer recorded for one chunk: the chat response on success, or the
per-failure fallback text. -/
def chunk_answer (respond : PyStr → ChunkOutcome) (c : PyStr) : String :=
  match respond c with
  | ChunkOutcome.ok r => r
  | ChunkOutcome.timedOut => chunkTimeoutMessage
  | ChunkOutcome.failed => chunkErrorMessage

/-- The `responses` accumulation loop of the app/main.py `chat` endpoint:
each chunk appends exactly one answer, in order. -/
def process_chunks (respond : PyStr → ChunkOutcome) : List PyStr → List String
  | [] => []
  | c :: cs => chunk_answer respond c :: process_chunks respond cs

/-- app/main.py `chat` endpoint final response:
`final_response = " ".join(responses)` over the per-chunk answers. -/
def chat_endpoint_response (respond : PyStr → ChunkOutcome) (t : PyStr) : String :=
  String.intercalate " " (process_chunks respond (chatChunks t))

/-- A 502-character text — a 500-character word, a space and a one-character
word — on which the chat endpoint splitter produces several chunks. -/
def chatRoundtripFailingText : PyStr :=
  List.replicate 500 'a' ++ [' ', 'b']

/-- Claim C1 (code bug): the point id written by qdrant `store_document` is
`hash(text)` — a function of the content text alone — so two distinct store
calls with the same text always produce the same point id, and the id is never
the freshly generated UUID that app/main.py creates for the document. -/
theorem store_point_id_derived_from_content :
    ∀ (pyHash : String → Int) (e1 e2 : Vec) (m1 m2 : PyDict),
      (qdrant_store_point pyHash "hello" e1 m1).id
          = (qdrant_store_point pyHash "hello" e2 m2).id ∧
      ∀ (t : String) (e : Vec) (m : PyDict),
        (qdrant_store_point pyHash t e m).id = pyHash t := by
  intro pyHash e1 e2 m1 m2
  exact ⟨rfl, fun t e m => rfl⟩

/-- Claim C10: a three-positional-argument call to qdrant `store_document`
binds, but the four-positional-argument call made by the `/documents` handler
does not, nor does the `doc_id=`-keyword call made by `/simplify`; hence the
`/documents` store path always raises a `TypeError` before any upsert. -/
theorem store_endpoint_always_raises_type_error :
    py_call_ok qdrant_store_params qdrant_store_defaults 3 [] = true ∧
    py_call_ok qdrant_store_params qdrant_store_defaults 4 [] = false ∧
    py_call_ok qdrant_store_params qdrant_store_defaults 0 simplify_store_kwargs = false ∧
    ∀ (text : String) (embedding : Vec) (metadata : PyDict),
      store_document_endpoint text embedding metadata = (Except.error "TypeError", 0) := by
  refine ⟨by decide, by decide, by decide, ?_⟩
  intro text embedding metadata
  rfl

/-- Claim C2: under the invariant that every cached text passed the token
check, `get_embedding` on a text of more than 8191 tokens fails with the
input-too-long error and makes no provider call, and on a text of at most
8191 tokens it never fails with the input-too-long error. -/
theorem embed_rejects_overlong_input (encode : String → List Nat)
    (provider : String → Except Unit Vec) (c : EmbCache) (text : String)
    (hinv : ∀ p ∈ c, count_tokens encode p.1 ≤ 8191) :
    (count_tokens encode text > 8191 →
      (get_embedding encode provider c text).1
          = Except.error (EmbedError.inputTooLong (count_tokens encode text)) ∧
      (get_embedding encode provider c text).2.2 = 0) ∧
    (count_tokens encode text ≤ 8191 →
      ∀ n, (get_embedding encode provider c text).1
          ≠ Except.error (EmbedError.inputTooLong n)) := by
  constructor
  · intro hgt
    have hmiss : lruLookup c text = none := by
      cases hfind : c.find? (fun e => decide (e.1 = text)) with
      | none => simp [lruLookup, hfind]
      | some p =>
        exfalso
        have hmem : p ∈ c := List.mem_of_find?_eq_some hfind
        have := hinv p hmem
        have hkey : p.1 = text := by
          have := List.find?_some hfind
          simpa using this
        rw [hkey] at this
        omega
    unfold get_embedding
    rw [hmiss]
    unfold get_embedding_body
    simp [if_pos hgt]
  · intro hle n
    unfold get_embedding
    cases hfind : lruLookup c text with
    | some v => simp
    | none =>
      unfold get_embedding_body
      have hnot : ¬ count_tokens encode text > 8191 := by omega
      simp only [if_neg hnot]
      cases provider text with
      | ok v => simp
      | error e => simp

/-- Witness for claim C2 at a concrete over-long input: an encoder producing
8192 tokens makes `get_embedding` fail with the input-too-long error. -/
theorem embed_rejects_overlong_input_witness :
    (get_embedding (fun _ => List.replicate 8192 0) (fun _ => Except.ok []) [] "x").1
        = Except.error (EmbedError.inputTooLong 8192) := by
  have hc : count_tokens (fun _ : String => List.replicate 8192 (0 : Nat)) "x" = 8192 := by
    simp only [count_tokens, List.length_replicate]
  have h := (embed_rejects_overlong_input (fun _ => List.replicate 8192 0)
      (fun _ => Except.ok []) [] "x" (by intro p hp; simp at hp)).1
      (by rw [hc]; omega)
  rw [hc] at h
  exact h.1

/-- Claim C3: if a first `get_embedding` call for a text succeeds, the second
call for the same text is a cache hit returning the same vector with zero
provider calls, the first call made at most one provider call, and a call
whose result is an error leaves the cache unchanged (failures are not
cached). -/
theorem embed_second_call_cached (encode : String → List Nat)
    (provider : String → Except Unit Vec) (c : EmbCache) (text : String)
    (v : Vec) (c1 : EmbCache) (n1 : Nat)
    (h1 : get_embedding encode provider c text = (Except.ok v, c1, n1)) :
    (get_embedding encode provider c1 text).1 = Except.ok v ∧
    (get_embedding encode provider c1 text).2.2 = 0 ∧
    n1 ≤ 1 ∧
    (∀ (c' : EmbCache) (t' : String) (err : EmbedError),
      (get_embedding encode provider c' t').1 = Except.error err →
      (get_embedding encode provider c' t').2.1 = c') := by
  have hhit : lruLookup c1 text = some v ∧ n1 ≤ 1 := by
    unfold get_embedding at h1
    cases hfind : lruLookup c text with
    | some v0 =>
      rw [hfind] at h1
      obtain ⟨hv, hc, hn⟩ :
          (Except.ok v0 : Except EmbedError Vec) = Except.ok v
            ∧ lruTouch c text v0 = c1 ∧ 0 = n1 := by
        simpa using h1
      obtain rfl : v0 = v := by simpa using hv
      subst hc hn
      constructor
      · simp [lruLookup, lruTouch, List.find?]
      · omega
    | none =>
      rw [hfind] at h1
      unfold get_embedding_body at h1
      by_cases hgt : count_tokens encode text > 8191
      · rw [if_pos hgt] at h1
        simp at h1
      · rw [if_neg hgt] at h1
        cases hp : provider text with
        | ok w =>
          rw [hp] at h1
          obtain ⟨hv, hc, hn⟩ :
              (Except.ok w : Except EmbedError Vec) = Except.ok v
                ∧ lruInsert c text w = c1 ∧ 1 = n1 := by
            simpa using h1
          obtain rfl : w = v := by simpa using hv
          subst hc hn
          constructor
          · simp [lruLookup, lruInsert, List.take_succ_cons, List.find?]
          · omega
        | error e =>
          rw [hp] at h1
          simp at h1
  refine ⟨?_, ?_, hhit.2, ?_⟩
  · unfold get_embedding
    rw [hhit.1]
  · unfold get_embedding
    rw [hhit.1]
  · intro c' t' err herr
    cases hfind : lruLookup c' t' with
    | some w =>
      exfalso
      unfold get_embedding at herr
      rw [hfind] at herr
      simp at herr
    | none =>
      cases hbody : get_embedding_body encode provider t' with
      | mk r n =>
        cases r with
        | ok w =>
          exfalso
          unfold get_embedding at herr
          rw [hfind, hbody] at herr
          simp at herr
        | error e2 =>
          unfold get_embedding
          rw [hfind, hbody]

/-- Witness for claim C3 at a concrete input: after a successful first call
that cached the vector for "hi", the second call returns it from the cache. -/
theorem embed_second_call_cached_witness :
    (get_embedding (fun _ => []) (fun _ => Except.ok [0]) [("hi", [0])] "hi").1
        = Except.ok [0] ∧
    (get_embedding (fun _ => []) (fun _ => Except.ok [0]) [("hi", [0])] "hi").2.2 = 0 := by
  have h := embed_second_call_cached (fun _ => []) (fun _ => Except.ok [0]) [] "hi"
      [0] [("hi", [0])] 1 rfl
  exact ⟨h.1, h.2.1⟩

/-- Counterexample to claim C4: when the 10-second timeout fires on the
retrieval-augmented path, even though the direct-generation fallback would
succeed, the code returns a fixed apology string, makes no direct generation
call, and the response payload has no `degraded` key at all. -/
theorem chat_timeout_no_fallback_counterexample :
    get_chat_response RagOutcome.timeout (Except.ok "FALLBACK") = (chatTimeoutMessage, false) ∧
    chatTimeoutMessage ≠ "FALLBACK" ∧
    dictGet (chat_response_payload chatTimeoutMessage) "degraded" = none := by
  refine ⟨rfl, by decide, by decide⟩

/-- Amended claim C4: on a chain error or a missing chain answer the request
falls back to a direct generation call on the raw query and returns its
answer; on a timeout it returns a fixed apology without any fallback call;
and in every case the response payload carries no degraded flag. -/
theorem chat_fallback_behavior :
    ∀ r : String,
      get_chat_response RagOutcome.chainError (Except.ok r) = (r, true) ∧
      get_chat_response RagOutcome.noAnswer (Except.ok r) = (r, true) ∧
      get_chat_response RagOutcome.timeout (Except.ok r) = (chatTimeoutMessage, false) ∧
      dictGet (chat_response_payload r) "degraded" = none := by
  intro r
  refine ⟨rfl, rfl, rfl, ?_⟩
  simp +decide [chat_response_payload, dictGet]

/-- Counterexample to claim C5: a document chunk written by
`LangChainService.process_document` with the default (absent) caller metadata
carries no `type` discriminator at all. -/
theorem document_chunk_missing_type_counterexample :
    dictGet (langchain_chunk_metadata "doc.txt" 0 "doc.txt" []) "type" = none := by
  decide

/-- Amended claim C5: conversation turns written by `add_to_chat_history`
carry `type = "chat"`, but document chunks written by either document
processing path carry no `type` discriminator unless the caller supplies one
in the extra metadata. -/
theorem type_discriminator_only_on_chat_turns :
    (∀ messageId role timestamp contextId content,
      dictGet (chat_turn_metadata messageId role timestamp contextId content) "type"
          = some (MetaVal.s "chat")) ∧
    (∀ (docId : String) (chunkId : Nat) (source : String),
      dictGet (langchain_chunk_metadata docId chunkId source []) "type" = none) ∧
    (∀ (loaderSource docId source : String),
      dictGet (document_service_chunk_metadata [("source", MetaVal.s loaderSource)]
          docId source []) "type" = none) := by
  refine ⟨?_, ?_, ?_⟩
  · intro messageId role timestamp contextId content
    simp +decide [chat_turn_metadata, dictGet]
  · intro docId chunkId source
    simp +decide [langchain_chunk_metadata, dictUpdate, dictGet]
  · intro loaderSource docId source
    simp +decide [document_service_chunk_metadata, dictUpdate, dictGet]

/-- Claim C6: whatever the scroll call returns, the messages produced by
`get_chat_history` are sorted non-decreasing by timestamp. -/
theorem history_sorted_by_timestamp (scroll : Except String (List ScrollPoint))
    (defaultId nowTs : String) :
    List.Sorted tsLe (get_chat_history scroll defaultId nowTs) := by
  cases scroll with
  | error e => exact List.sorted_nil
  | ok points => exact List.sorted_insertionSort tsLe _

/-- Counterexample to claim C7: on a 502-character text the chat endpoint
splitter produces several chunks with no overlap, and concatenating them
(dropping the zero-length overlap of each later chunk) does not reconstruct
the original text — the space between chunks is lost. -/
theorem chunk_roundtrip_counterexample :
    reconstructChunks 0 (chatChunks chatRoundtripFailingText) ≠ chatRoundtripFailingText := by
  decide

/-- Helper: while every extension of the current chunk stays within the
500-character budget, the accumulating loop produces a single chunk equal to
the current prefix followed by the remaining words, space separated. -/
theorem chatChunksAux_single (ws : List PyStr) (current : PyStr)
    (hne : current ≠ []) (hlen : current.length + (joinSpTail ws).length ≤ 500) :
    chatChunksAux ws current = [current ++ joinSpTail ws] := by
  induction ws generalizing current with
  | nil =>
    simp [chatChunksAux, hne, joinSpTail]
  | cons w ws ih =>
    have hlens : (joinSpTail (w :: ws)).length
        = 1 + w.length + (joinSpTail ws).length := by
      simp [joinSpTail]
      omega
    have hcond : current.length + w.length + 1 ≤ 500 := by
      rw [hlens] at hlen
      omega
    rw [chatChunksAux, if_pos hcond, if_neg hne]
    rw [ih (current ++ ' ' :: w) (by simp) (by simp [hlens] at hlen ⊢; omega)]
    simp [joinSpTail]

/-- Helper: the words produced by Python `text.split()` are never empty. -/
theorem pyWords_ne_nil (t : PyStr) : ∀ w ∈ pyWords t, w ≠ [] := by
  intro w hw
  simp [pyWords, List.mem_filter] at hw
  exact hw.2

/-- Amended claim C7: the chat splitter has overlap 0 (which is less than its
chunk size 500) but normalizes whitespace and drops the space at each chunk
boundary, so the round-trip only holds in the single-chunk regime: for a
non-empty text that equals its own words joined by single spaces and is
shorter than 500 characters, the splitter returns the text as one chunk and
the reconstruction is exact. -/
theorem chat_chunk_roundtrip_normalized (t : PyStr)
    (hnorm : t = joinWords (pyWords t)) (hne : t ≠ []) (hlen : t.length + 1 ≤ 500) :
    chatChunks t = [t] ∧ reconstructChunks 0 (chatChunks t) = t := by
  cases hw : pyWords t with
  | nil =>
    exact absurd (by rw [hnorm, hw]; rfl) hne
  | cons w ws =>
    have hwne : w ≠ [] := pyWords_ne_nil t w (by rw [hw]; exact List.mem_cons_self w ws)
    have hlen' : w.length + (joinSpTail ws).length = t.length := by
      conv_rhs => rw [hnorm, hw]
      simp [joinWords]
    have hchunks : chatChunks t = [t] := by
      unfold chatChunks
      rw [hw, chatChunksAux, if_pos (by simp; omega), if_pos rfl]
      rw [chatChunksAux_single ws w hwne (by omega)]
      rw [hnorm, hw]
      rfl
    refine ⟨hchunks, ?_⟩
    rw [hchunks]
    simp [reconstructChunks]

/-- Witness for amended claim C7 at the concrete text "a b": one chunk,
reconstructed exactly. -/
theorem chat_chunk_roundtrip_normalized_witness :
    chatChunks ['a', ' ', 'b'] = [['a', ' ', 'b']] ∧
    reconstructChunks 0 (chatChunks ['a', ' ', 'b']) = ['a', ' ', 'b'] :=
  chat_chunk_roundtrip_normalized ['a', ' ', 'b'] (by decide) (by decide) (by decide)

/-- Claim C8: the chat endpoint answers every chunk of the request text
independently — the recorded answer is the chunk's response or the matching
fallback text — the number of answers equals the number of chunks, and the
final response joins the answers in order with the single separator " ". -/
theorem chat_chunked_answers_joined (respond : PyStr → ChunkOutcome) (t : PyStr) :
    process_chunks respond (chatChunks t) = (chatChunks t).map (chunk_answer respond) ∧
    (process_chunks respond (chatChunks t)).length = (chatChunks t).length ∧
    chat_endpoint_response respond t
        = String.intercalate " " ((chatChunks t).map (chunk_answer respond)) := by
  have hmap : ∀ l : List PyStr, process_chunks respond l = l.map (chunk_answer respond) := by
    intro l
    induction l with
    | nil => rfl
    | cons c cs ih => simp [process_chunks, ih]
  refine ⟨hmap _, ?_, ?_⟩
  · rw [hmap]
    simp
  · unfold chat_endpoint_response
    rw [hmap]

/-- Counterexample to claim C9: `clear_chat_history` reports success even when
the underlying delete fails, and `get_chat_history` returns an empty list when
the scroll fails — both hide the failure from the caller. -/
theorem swallowed_errors_counterexample :
    clear_chat_history (fun _ => Except.error "ConnectionError") (some "c1") = Except.ok () ∧
    get_chat_history (Except.error "ConnectionError") "id0" "ts0" = [] :=
  ⟨rfl, rfl⟩

/-- Amended claim C9: not every caught exception is surfaced —
`clear_chat_history` returns success regardless of the delete outcome, and
`get_chat_history` maps every scroll failure to the empty list,
indistinguishable from genuinely empty history. -/
theorem history_errors_swallowed :
    (∀ (delete : PyDict → Except String Unit) (contextId : Option String),
      clear_chat_history delete contextId = Except.ok ()) ∧
    (∀ (e defaultId nowTs : String),
      get_chat_history (Except.error e) defaultId nowTs = []) := by
  constructor
  · intro delete contextId
    have h : ∀ r : Except String Unit,
        (match r with
         | Except.ok _ => (Except.ok () : Except String Unit)
         | Except.error _ => Except.ok ()) = Except.ok () := by
      intro r
      cases r <;> rfl
    exact h _
  · intro e defaultId nowTs
    rfl

end VecBrain
